import Mathlib

/-!
Shallow embedding of the insights-aggregation core of the git-dashboard
repository: the `useFacebookApi` hook (parseActions, parseInsightsRow,
emptyInsights, parseDailyArray, fetchInsights, selectCampaign,
clearCampaignSelection, disconnect) and the campaign-row metric
computation of the Dashboard component (parseActionsByCandidates,
parseActionValues, the per-row roas formula).

JavaScript numbers are modelled as exact rationals plus a distinct NaN
value; the remote reporting API is modelled as an environment of
per-tier responses supplied to each operation.
-/

/-- JavaScript number: an exact rational or NaN.  Infinity is not
modelled; no code path under verification produces it (every division
in the sources is guarded by a positivity test on the denominator). -/
inductive JsNum where
  | nan : JsNum
  | num : ℚ → JsNum
  deriving DecidableEq, Repr

/-- Strict greater-than on JS numbers: any comparison with NaN is false. -/
def jsGt : JsNum → JsNum → Bool
  | JsNum.num a, JsNum.num b => a > b
  | _, _ => false

/-- Division on JS numbers: NaN propagates.  The divisor-zero case is
unreachable in this development (all uses are guarded by jsGt _ 0). -/
def jsDiv : JsNum → JsNum → JsNum
  | JsNum.num a, JsNum.num b => if b = 0 then JsNum.nan else JsNum.num (a / b)
  | _, _ => JsNum.nan

/-- Splits a leading run of decimal digits off a character list,
returning their values and the rest. -/
def takeDigits : List Char → List Nat × List Char
  | [] => ([], [])
  | c :: rest =>
    if c.isDigit then
      let p := takeDigits rest
      ((c.toNat - 48) :: p.1, p.2)
    else ([], c :: rest)

/-- Value of a digit list read left to right in base ten. -/
def natOfDigits (ds : List Nat) : Nat :=
  ds.foldl (fun a d => a * 10 + d) 0

/-- Signed decimal exponent digits after the `e` marker; an exponent
with no digits contributes 0, as the shortest-valid-literal rule of
JS parseFloat ignores it. -/
def expDigits : List Char → Int
  | '-' :: r => -(natOfDigits (takeDigits r).1 : Int)
  | '+' :: r => (natOfDigits (takeDigits r).1 : Int)
  | r => (natOfDigits (takeDigits r).1 : Int)

/-- Exponent contributed by the remainder of a numeric literal. -/
def expValue : List Char → Int
  | 'e' :: r => expDigits r
  | 'E' :: r => expDigits r
  | _ => 0

/-- Power of ten as a rational, by plain recursion so that the kernel
can evaluate it on closed inputs. -/
def pow10 : Nat → ℚ
  | 0 => 1
  | n + 1 => 10 * pow10 n

/-- Scales a rational by a signed power of ten. -/
def applyExp (q : ℚ) (e : Int) : ℚ :=
  if 0 ≤ e then q * pow10 e.toNat else q / pow10 (-e).toNat

/-- Model of JS parseFloat on finite decimal literals: optional sign,
digits with optional fraction and exponent; NaN when no digit is
consumed.  The Infinity literal is not modelled (never supplied here). -/
def jsParseFloat (s : String) : JsNum :=
  let cs := s.data.dropWhile (fun c => c = ' ')
  let signed : Bool × List Char :=
    match cs with
    | '-' :: r => (true, r)
    | '+' :: r => (false, r)
    | r => (false, r)
  let ip := takeDigits signed.2
  let fp : List Nat × List Char :=
    match ip.2 with
    | '.' :: r => takeDigits r
    | r => ([], r)
  if ip.1 = [] ∧ fp.1 = [] then JsNum.nan
  else
    let mag : ℚ :=
      (natOfDigits ip.1 : ℚ) + (natOfDigits fp.1 : ℚ) / pow10 fp.1.length
    JsNum.num (applyExp (if signed.1 then -mag else mag) (expValue fp.2))

/-- Model of JS parseInt with the default radix on decimal input:
optional sign then a digit run; NaN when no digit is consumed. -/
def jsParseInt (s : String) : JsNum :=
  let cs := s.data.dropWhile (fun c => c = ' ')
  let signed : Bool × List Char :=
    match cs with
    | '-' :: r => (true, r)
    | '+' :: r => (false, r)
    | r => (false, r)
  let ds := (takeDigits signed.2).1
  if ds = [] then JsNum.nan
  else JsNum.num (if signed.1 then -(natOfDigits ds : ℚ) else (natOfDigits ds : ℚ))

/-- One `{action_type, value}` record of the upstream actions taxonomy. -/
structure ActionRecord where
  action_type : String
  value : String
  deriving DecidableEq, Repr

/-- JS `x || dflt` on an optional string field: undefined and the empty
string are falsy and replaced by the default. -/
def jsOr (v : Option String) (dflt : String) : String :=
  match v with
  | none => dflt
  | some "" => dflt
  | some t => t

/-- parseActions of useFacebookApi (identical copy in Dashboard):
value of the first record whose action_type equals the label, 0 when
the list is undefined or no record matches. -/
def parseActions (actions : Option (List ActionRecord)) (type : String) : JsNum :=
  match actions with
  | none => JsNum.num 0
  | some l =>
    match l.find? (fun a => a.action_type = type) with
    | some found => jsParseFloat found.value
    | none => JsNum.num 0

/-- parseActionValues of Dashboard, whose body is identical to
parseActions. -/
def parseActionValues (actions : Option (List ActionRecord)) (type : String) : JsNum :=
  match actions with
  | none => JsNum.num 0
  | some l =>
    match l.find? (fun a => a.action_type = type) with
    | some found => jsParseFloat found.value
    | none => JsNum.num 0

/-- Inner loop of parseActionsByCandidates over the candidate labels. -/
def findByCandidates (l : List ActionRecord) : List String → JsNum
  | [] => JsNum.num 0
  | c :: rest =>
    match l.find? (fun a => a.action_type = c) with
    | some found => jsParseFloat found.value
    | none => findByCandidates l rest

/-- parseActionsByCandidates of Dashboard: tries each candidate label
in order and returns the first match's value, 0 when the list is
undefined or nothing matches. -/
def parseActionsByCandidates (actions : Option (List ActionRecord))
    (candidates : List String) : JsNum :=
  match actions with
  | none => JsNum.num 0
  | some l => findByCandidates l candidates

/-- One raw row of a tier response: every scalar field an optional
string, action lists optional, campaign identity present on
campaign-level rows. -/
structure Row where
  spend : Option String := none
  impressions : Option String := none
  reach : Option String := none
  clicks : Option String := none
  cpc : Option String := none
  cpm : Option String := none
  ctr : Option String := none
  actions : Option (List ActionRecord) := none
  action_values : Option (List ActionRecord) := none
  date_start : Option String := none
  campaign_id : Option String := none
  campaign_name : Option String := none
  deriving DecidableEq, Repr

/-- AccountInsights of types.ts: the derived numeric snapshot. -/
structure AccountInsights where
  spend : JsNum
  impressions : JsNum
  reach : JsNum
  clicks : JsNum
  cpc : JsNum
  cpm : JsNum
  ctr : JsNum
  purchases : JsNum
  purchaseValue : JsNum
  roas : JsNum
  costPerPurchase : JsNum
  addToCart : JsNum
  leads : JsNum
  deriving DecidableEq, Repr

/-- parseInsightsRow of useFacebookApi: normalizes one raw row into an
AccountInsights snapshot with the zero-guarded ratio formulas. -/
def parseInsightsRow (d : Row) : AccountInsights :=
  let purchases := parseActions d.actions "purchase"
  let purchaseValue := parseActions d.action_values "purchase"
  let spend := jsParseFloat (jsOr d.spend "0")
  { spend := spend
    impressions := jsParseInt (jsOr d.impressions "0")
    reach := jsParseInt (jsOr d.reach "0")
    clicks := jsParseInt (jsOr d.clicks "0")
    cpc := jsParseFloat (jsOr d.cpc "0")
    cpm := jsParseFloat (jsOr d.cpm "0")
    ctr := jsParseFloat (jsOr d.ctr "0")
    purchases := purchases
    purchaseValue := purchaseValue
    roas := if jsGt spend (JsNum.num 0) then jsDiv purchaseValue spend else JsNum.num 0
    costPerPurchase :=
      if jsGt purchases (JsNum.num 0) then jsDiv spend purchases else JsNum.num 0
    addToCart := parseActions d.actions "add_to_cart"
    leads := parseActions d.actions "lead" }

/-- emptyInsights of useFacebookApi: the canonical all-zero snapshot. -/
def emptyInsights : AccountInsights :=
  { spend := JsNum.num 0, impressions := JsNum.num 0, reach := JsNum.num 0
    clicks := JsNum.num 0, cpc := JsNum.num 0, cpm := JsNum.num 0
    ctr := JsNum.num 0, purchases := JsNum.num 0, purchaseValue := JsNum.num 0
    roas := JsNum.num 0, costPerPurchase := JsNum.num 0
    addToCart := JsNum.num 0, leads := JsNum.num 0 }

/-- DailyData of types.ts: one point of the per-day series. -/
structure DailyData where
  date : String
  spend : JsNum
  impressions : JsNum
  clicks : JsNum
  purchases : JsNum
  revenue : JsNum
  leads : JsNum
  deriving DecidableEq, Repr

/-- parseDailyArray of useFacebookApi, one row. -/
def parseDailyRow (d : Row) : DailyData :=
  { date := (jsOr d.date_start "").drop 5
    spend := jsParseFloat (jsOr d.spend "0")
    impressions := jsParseInt (jsOr d.impressions "0")
    clicks := jsParseInt (jsOr d.clicks "0")
    purchases := parseActions d.actions "purchase"
    revenue := parseActions d.action_values "purchase"
    leads := parseActions d.actions "lead" }

/-- parseDailyArray of useFacebookApi. -/
def parseDailyArray (rows : List Row) : List DailyData :=
  rows.map parseDailyRow

/-- AdAccount of types.ts. -/
structure AdAccount where
  id : String
  account_id : String
  name : String
  currency : String
  account_status : Int
  deriving DecidableEq, Repr

/-- DateRange of types.ts: inclusive calendar dates as strings.  The
second field is named until in the source; that word is a Lean keyword,
hence the trailing underscore. -/
structure DateRange where
  since : String
  until_ : String
  deriving DecidableEq, Repr

/-- One tier response of the reporting API as the hook consumes it
after res.json(): either a structured provider error carrying a
message, or a payload whose data field may be absent. -/
inductive ApiResponse where
  | error : String → ApiResponse
  | ok : Option (List Row) → ApiResponse
  deriving DecidableEq, Repr

/-- Responses the three fetches of fetchInsights receive, in source
order: account tier, campaign tier, daily tier. -/
structure FetchEnv where
  accountRes : ApiResponse
  campaignsRes : ApiResponse
  dailyRes : ApiResponse
  deriving DecidableEq, Repr

/-- Responses the two fetches of selectCampaign receive: campaign
insights and campaign daily data. -/
structure SelectEnv where
  insightsRes : ApiResponse
  dailyRes : ApiResponse
  deriving DecidableEq, Repr

/-- The useState cells of useFacebookApi. -/
structure HookState where
  token : String
  accounts : List AdAccount
  selectedAccount : Option AdAccount
  insights : Option AccountInsights
  campaigns : List Row
  dailyData : List DailyData
  loading : Bool
  error : Option String
  accountInsights : Option AccountInsights
  accountDailyData : List DailyData
  selectedCampaignId : Option String
  lastDateRange : Option DateRange
  deriving DecidableEq, Repr

/-- State at mount: every cell at its initializer, the token coming
from localStorage (empty string when nothing was persisted). -/
def initialState (persistedToken : String) : HookState :=
  { token := persistedToken
    accounts := []
    selectedAccount := none
    insights := none
    campaigns := []
    dailyData := []
    loading := false
    error := none
    accountInsights := none
    accountDailyData := []
    selectedCampaignId := none
    lastDateRange := none }

/-- Account-tier parse step of fetchInsights: first row when the data
list is present and nonempty, the canonical empty snapshot otherwise. -/
def accountParsed : Option (List Row) → AccountInsights
  | some (r :: _) => parseInsightsRow r
  | _ => emptyInsights

/-- fetchInsights of useFacebookApi over an explicit response
environment.  Returns the next state and the number of network
requests issued.  The guard mirrors the JS falsiness test on the
token; the account/selection/date-range cells are written before the
try block; an account-tier provider error is thrown, caught and
surfaced, with loading cleared in the finally; a campaign-tier error
leaves the campaigns cell unwritten; a daily-tier error or missing
payload yields the empty daily series. -/
def fetchInsights (account : AdAccount) (dateRange : DateRange)
    (env : FetchEnv) (s : HookState) : HookState × Nat :=
  if s.token = "" then (s, 0)
  else
    let s1 : HookState :=
      { s with loading := true, error := none, selectedAccount := some account,
               selectedCampaignId := none, lastDateRange := some dateRange }
    match env.accountRes with
    | ApiResponse.error msg => ({ s1 with error := some msg, loading := false }, 1)
    | ApiResponse.ok dat =>
      let parsed := accountParsed dat
      let s2 := { s1 with insights := some parsed, accountInsights := some parsed }
      let s3 :=
        match env.campaignsRes with
        | ApiResponse.error _ => s2
        | ApiResponse.ok d => { s2 with campaigns := d.getD [] }
      let daily :=
        match env.dailyRes with
        | ApiResponse.ok (some rows) => parseDailyArray rows
        | _ => []
      ({ s3 with dailyData := daily, accountDailyData := daily, loading := false }, 3)

/-- selectCampaign of useFacebookApi over an explicit response
environment.  Returns the next state and the number of network
requests issued.  Short-circuits when the token is empty or no date
range has been stored; clicking the currently selected campaign
toggles back to the baseline with no request; otherwise two
campaign-scoped requests are issued, an insights-tier provider error
being thrown, caught and surfaced. -/
def selectCampaign (campaignId : String) (env : SelectEnv)
    (s : HookState) : HookState × Nat :=
  if s.token = "" ∨ s.lastDateRange = none then (s, 0)
  else if some campaignId = s.selectedCampaignId then
    ({ s with selectedCampaignId := none, insights := s.accountInsights,
              dailyData := s.accountDailyData }, 0)
  else
    let s1 : HookState :=
      { s with loading := true, error := none, selectedCampaignId := some campaignId }
    match env.insightsRes with
    | ApiResponse.error msg => ({ s1 with error := some msg, loading := false }, 1)
    | ApiResponse.ok dat =>
      let s2 := { s1 with insights := some (accountParsed dat) }
      let s3 :=
        match env.dailyRes with
        | ApiResponse.ok (some rows) => { s2 with dailyData := parseDailyArray rows }
        | _ => { s2 with dailyData := [] }
      ({ s3 with loading := false }, 2)

/-- clearCampaignSelection of useFacebookApi: drop the selection and
restore the displayed slots from the baseline cache. -/
def clearCampaignSelection (s : HookState) : HookState :=
  { s with selectedCampaignId := none, insights := s.accountInsights,
           dailyData := s.accountDailyData }

/-- disconnect of useFacebookApi: reset the listed cells to their
initializers (error and loading are not among them in the source). -/
def disconnect (s : HookState) : HookState :=
  { s with token := "", accounts := [], selectedAccount := none, insights := none,
           campaigns := [], dailyData := [], accountInsights := none,
           accountDailyData := [], selectedCampaignId := none, lastDateRange := none }

/-- Dashboard campaign-table row metrics computed per row of the
campaigns list. -/
structure CampaignRowMetrics where
  spend : JsNum
  purchases : JsNum
  messaging : JsNum
  purchaseValue : JsNum
  roas : JsNum
  deriving DecidableEq, Repr

/-- messagingActionTypes of Dashboard: candidate labels in priority
order. -/
def messagingActionTypes : List String :=
  ["onsite_conversion.messaging_conversation_started_7d",
   "onsite_conversion.messaging_conversation_started",
   "onsite_conversion.messaging_first_reply"]

/-- Per-row metric computation of the Dashboard campaigns table. -/
def dashboardCampaignRow (c : Row) : CampaignRowMetrics :=
  let spend := jsParseFloat (jsOr c.spend "0")
  let purchases := parseActions c.actions "purchase"
  let messaging := parseActionsByCandidates c.actions messagingActionTypes
  let purchaseValue := parseActionValues c.action_values "purchase"
  { spend := spend
    purchases := purchases
    messaging := messaging
    purchaseValue := purchaseValue
    roas := if jsGt spend (JsNum.num 0) then jsDiv purchaseValue spend else JsNum.num 0 }

/-- Campaign-tier update step of fetchInsights as a function of the
response: the conditional setCampaigns leaves the previous campaigns
value in place on a provider error and stores the payload (defaulting
to the empty list) otherwise. -/
def campaignsResult : ApiResponse → List Row → List Row
  | ApiResponse.error _, prev => prev
  | ApiResponse.ok d, _ => d.getD []

/-- Daily-tier update step of fetchInsights as a function of the
response: a present payload is parsed, anything else yields the empty
series. -/
def dailyResult : ApiResponse → List DailyData
  | ApiResponse.ok (some rows) => parseDailyArray rows
  | _ => []

/-- Sample account A used in the closed scenario theorems. -/
def acctA : AdAccount :=
  { id := "act_1", account_id := "1", name := "A", currency := "USD", account_status := 1 }

/-- Sample account B used in the closed scenario theorems. -/
def acctB : AdAccount :=
  { id := "act_2", account_id := "2", name := "B", currency := "USD", account_status := 1 }

/-- Sample date range used in the closed scenario theorems. -/
def rangeEx : DateRange := { since := "2024-01-01", until_ := "2024-01-07" }

/-- Sample account-tier row with spend, a purchase action and a
purchase action value. -/
def rowEx : Row :=
  { spend := some "10"
    actions := some [{ action_type := "purchase", value := "2" }]
    action_values := some [{ action_type := "purchase", value := "30" }] }

/-- Sample campaign-tier row. -/
def campRowEx : Row :=
  { campaign_id := some "c1", campaign_name := some "Camp 1", spend := some "5" }

/-- State holding a nonempty campaigns list from an earlier load. -/
def stWithCampaigns : HookState := { initialState "t" with campaigns := [campRowEx] }

/-- Environment whose account tier succeeds while the campaign and
daily tiers provider-error. -/
def envCampErr : FetchEnv :=
  { accountRes := ApiResponse.ok (some [rowEx])
    campaignsRes := ApiResponse.error "camp down"
    dailyRes := ApiResponse.error "daily down" }

/-- State displaying account A with a campaign selected. -/
def stWithSelection : HookState :=
  { initialState "t" with selectedAccount := some acctA, selectedCampaignId := some "c9" }

/-- Environment whose account tier provider-errors. -/
def envAccErr : FetchEnv :=
  { accountRes := ApiResponse.error "Invalid OAuth access token"
    campaignsRes := ApiResponse.ok none
    dailyRes := ApiResponse.ok none }

/-- Environment in which all three tiers succeed. -/
def envOk : FetchEnv :=
  { accountRes := ApiResponse.ok (some [rowEx])
    campaignsRes := ApiResponse.ok (some [campRowEx])
    dailyRes := ApiResponse.ok (some [rowEx]) }

/-- Environment whose account tier succeeds with zero rows. -/
def envZero : FetchEnv :=
  { accountRes := ApiResponse.ok (some [])
    campaignsRes := ApiResponse.ok none
    dailyRes := ApiResponse.ok none }

/-- Campaign-scoped environment in which both sub-queries succeed. -/
def envSel : SelectEnv :=
  { insightsRes := ApiResponse.ok (some [rowEx]), dailyRes := ApiResponse.ok (some []) }

/-- State carrying a surfaced error message. -/
def stWithError : HookState := { initialState "t" with error := some "boom" }

/-- State reached from a fresh session with a saved token after a
single loadAccount whose account tier provider-errored. -/
def stAfterFailedLoad : HookState :=
  (fetchInsights acctA rangeEx envAccErr (initialState "t")).1

/-- State with a stored date range and campaign c1 selected. -/
def stSelected : HookState :=
  { initialState "t" with lastDateRange := some rangeEx, selectedCampaignId := some "c1" }

/-- C3 counterexample: a matching record whose value is the malformed
numeric string abc makes the lookup return NaN rather than 0. -/
theorem parseActions_malformed_counterexample :
    parseActions (some [{ action_type := "purchase", value := "abc" }]) "purchase"
      = JsNum.nan ∧ JsNum.nan ≠ JsNum.num 0 :=
  ⟨by decide, by decide⟩

/-- C3 (amended): the lookup returns 0 when the records list is
absent, empty, or has no matching record; it never throws (it is a
total function); and on the first matching record it returns JS
parseFloat of the record's value, which is NaN — not 0 — when the
value has no parseable numeric prefix. -/
theorem parseActions_lookup_spec (records : List ActionRecord) (label : String) :
    parseActions none label = JsNum.num 0 ∧
    parseActions (some []) label = JsNum.num 0 ∧
    (records.find? (fun a => a.action_type = label) = none →
      parseActions (some records) label = JsNum.num 0) ∧
    (∀ r, records.find? (fun a => a.action_type = label) = some r →
      parseActions (some records) label = jsParseFloat r.value) := by
  refine ⟨rfl, rfl, fun h => ?_, fun r h => ?_⟩
  · simp [parseActions, h]
  · simp [parseActions, h]

/-- C3 witness: the lookup applied to a single purchase record with
value 12.5 returns parseFloat of that value. -/
theorem parseActions_lookup_spec_witness :
    parseActions (some [{ action_type := "purchase", value := "12.5" }]) "purchase"
      = jsParseFloat "12.5" :=
  (parseActions_lookup_spec [{ action_type := "purchase", value := "12.5" }]
    "purchase").2.2.2 { action_type := "purchase", value := "12.5" } (by decide)

/-- C9: the candidate-list lookup on a singleton candidate list agrees
with the single-label lookup for every records list and every label;
in particular both return 0 when the records list is undefined or no
record matches. -/
theorem parseActionsByCandidates_singleton (records : Option (List ActionRecord))
    (label : String) :
    parseActionsByCandidates records [label] = parseActions records label := by
  cases records with
  | none => rfl
  | some l =>
    cases h : l.find? (fun a => a.action_type = label) with
    | none => simp [parseActionsByCandidates, parseActions, findByCandidates, h]
    | some found => simp [parseActionsByCandidates, parseActions, findByCandidates, h]

/-- Zero-guarded ratio: denominator equal to 0 forces the ratio to 0. -/
theorem zeroGuard_eq_zero (x y : JsNum) (h : x = JsNum.num 0) :
    (if jsGt x (JsNum.num 0) then jsDiv y x else JsNum.num 0) = JsNum.num 0 := by
  subst h
  simp [jsGt]

/-- Zero-guarded ratio: positive denominator selects the division. -/
theorem zeroGuard_eq_div (x y : JsNum) (q : ℚ) (hq : 0 < q) (h : x = JsNum.num q) :
    (if jsGt x (JsNum.num 0) then jsDiv y x else JsNum.num 0) = jsDiv y x := by
  subst h
  simp [jsGt, hq]

/-- C6: in every account-tier or campaign drill-down row parsed by
parseInsightsRow, and in every Dashboard campaign-table row, roas is
purchaseValue/spend when spend > 0 and 0 when spend = 0, and
costPerPurchase is spend/purchases when purchases > 0 and 0 when
purchases = 0, regardless of the other inputs. -/
theorem ratios_zero_guarded (d c : Row) :
    ((parseInsightsRow d).spend = JsNum.num 0 → (parseInsightsRow d).roas = JsNum.num 0) ∧
    (∀ q : ℚ, 0 < q → (parseInsightsRow d).spend = JsNum.num q →
      (parseInsightsRow d).roas
        = jsDiv (parseInsightsRow d).purchaseValue (parseInsightsRow d).spend) ∧
    ((parseInsightsRow d).purchases = JsNum.num 0 →
      (parseInsightsRow d).costPerPurchase = JsNum.num 0) ∧
    (∀ q : ℚ, 0 < q → (parseInsightsRow d).purchases = JsNum.num q →
      (parseInsightsRow d).costPerPurchase
        = jsDiv (parseInsightsRow d).spend (parseInsightsRow d).purchases) ∧
    ((dashboardCampaignRow c).spend = JsNum.num 0 →
      (dashboardCampaignRow c).roas = JsNum.num 0) ∧
    (∀ q : ℚ, 0 < q → (dashboardCampaignRow c).spend = JsNum.num q →
      (dashboardCampaignRow c).roas
        = jsDiv (dashboardCampaignRow c).purchaseValue (dashboardCampaignRow c).spend) := by
  refine ⟨fun h => ?_, fun q hq h => ?_, fun h => ?_, fun q hq h => ?_,
    fun h => ?_, fun q hq h => ?_⟩
  · exact zeroGuard_eq_zero _ _ h
  · exact zeroGuard_eq_div _ _ q hq h
  · exact zeroGuard_eq_zero _ _ h
  · exact zeroGuard_eq_div _ _ q hq h
  · exact zeroGuard_eq_zero _ _ h
  · exact zeroGuard_eq_div _ _ q hq h

/-- Success-branch characterization of fetchInsights: with a nonempty
token and an account-tier payload, the call issues three requests,
stores the parsed (or empty) snapshot in both the displayed and the
baseline slots, applies the per-tier campaign/daily update rules, and
resolves with no error and loading cleared. -/
theorem fetchInsights_ok (a : AdAccount) (r : DateRange) (env : FetchEnv)
    (s : HookState) (dat : Option (List Row))
    (htok : ¬ s.token = "") (hacc : env.accountRes = ApiResponse.ok dat) :
    fetchInsights a r env s =
      ({ s with loading := false, error := none, selectedAccount := some a,
                selectedCampaignId := none, lastDateRange := some r,
                insights := some (accountParsed dat),
                accountInsights := some (accountParsed dat),
                campaigns := campaignsResult env.campaignsRes s.campaigns,
                dailyData := dailyResult env.dailyRes,
                accountDailyData := dailyResult env.dailyRes }, 3) := by
  rcases hc : env.campaignsRes with m | d
  · rcases hd : env.dailyRes with m2 | o
    · simp [fetchInsights, htok, hacc, hc, hd, campaignsResult, dailyResult]
    · cases o with
      | none => simp [fetchInsights, htok, hacc, hc, hd, campaignsResult, dailyResult]
      | some rows => simp [fetchInsights, htok, hacc, hc, hd, campaignsResult, dailyResult]
  · rcases hd : env.dailyRes with m2 | o
    · simp [fetchInsights, htok, hacc, hc, hd, campaignsResult, dailyResult]
    · cases o with
      | none => simp [fetchInsights, htok, hacc, hc, hd, campaignsResult, dailyResult]
      | some rows => simp [fetchInsights, htok, hacc, hc, hd, campaignsResult, dailyResult]

/-- selectCampaign never writes the baseline slots, the token or the
stored date range, on any path. -/
theorem selectCampaign_preserves_baseline (cid : String) (env : SelectEnv)
    (s : HookState) :
    (selectCampaign cid env s).1.accountInsights = s.accountInsights ∧
    (selectCampaign cid env s).1.accountDailyData = s.accountDailyData ∧
    (selectCampaign cid env s).1.token = s.token ∧
    (selectCampaign cid env s).1.lastDateRange = s.lastDateRange := by
  unfold selectCampaign
  split
  · exact ⟨rfl, rfl, rfl, rfl⟩
  · split
    · exact ⟨rfl, rfl, rfl, rfl⟩
    · rcases hi : env.insightsRes with m | dat
      · simp [hi]
      · rcases hd : env.dailyRes with m2 | o
        · simp [hi, hd]
        · cases o with
          | none => simp [hi, hd]
          | some rows => simp [hi, hd]

/-- Selecting a campaign other than the current selection records the
clicked id on every path of the fetch branch. -/
theorem selectCampaign_sets_id (cid : String) (env : SelectEnv) (s : HookState)
    (htok : ¬ s.token = "") (hdr : ¬ s.lastDateRange = none)
    (hne : ¬ some cid = s.selectedCampaignId) :
    (selectCampaign cid env s).1.selectedCampaignId = some cid := by
  rcases hi : env.insightsRes with m | dat
  · simp [selectCampaign, htok, hdr, hne, hi]
  · rcases hd : env.dailyRes with m2 | o
    · simp [selectCampaign, htok, hdr, hne, hi, hd]
    · cases o with
      | none => simp [selectCampaign, htok, hdr, hne, hi, hd]
      | some rows => simp [selectCampaign, htok, hdr, hne, hi, hd]

/-- Toggle branch of selectCampaign: clicking the currently selected
campaign clears the selection, copies the baseline into the displayed
slots, and issues no request. -/
theorem selectCampaign_toggle (cid : String) (env : SelectEnv) (s : HookState)
    (htok : ¬ s.token = "") (hdr : ¬ s.lastDateRange = none)
    (hsel : s.selectedCampaignId = some cid) :
    selectCampaign cid env s =
      ({ s with selectedCampaignId := none, insights := s.accountInsights,
                dailyData := s.accountDailyData }, 0) := by
  unfold selectCampaign
  rw [if_neg (by simp [htok, hdr]), if_pos (by rw [hsel])]

/-- C1 counterexample: account tier succeeds and campaign tier
provider-errors, yet the campaigns list keeps its previous nonempty
value instead of degrading to the empty array. -/
theorem fetchInsights_stale_campaigns_counterexample :
    envCampErr.accountRes = ApiResponse.ok (some [rowEx]) ∧
    envCampErr.campaignsRes = ApiResponse.error "camp down" ∧
    (fetchInsights acctA rangeEx envCampErr stWithCampaigns).1.error = none ∧
    (fetchInsights acctA rangeEx envCampErr stWithCampaigns).1.campaigns = [campRowEx] ∧
    [campRowEx] ≠ ([] : List Row) := by
  refine ⟨rfl, rfl, rfl, rfl, by decide⟩

/-- C1 (amended): when the account tier succeeds and the campaign tier
provider-errors, loadAccount still resolves with the account insights
applied to both slots and no error surfaced; the campaigns list is
left at its previous value (not reset to the empty array), and a
daily-tier provider error yields an empty daily series. -/
theorem fetchInsights_campaign_tier_error (a : AdAccount) (r : DateRange)
    (env : FetchEnv) (s : HookState) (dat : Option (List Row)) (m : String)
    (htok : ¬ s.token = "") (hacc : env.accountRes = ApiResponse.ok dat)
    (hcamp : env.campaignsRes = ApiResponse.error m) :
    (fetchInsights a r env s).1.error = none ∧
    (fetchInsights a r env s).1.insights = some (accountParsed dat) ∧
    (fetchInsights a r env s).1.accountInsights = some (accountParsed dat) ∧
    (fetchInsights a r env s).1.campaigns = s.campaigns ∧
    (∀ m2, env.dailyRes = ApiResponse.error m2 →
      (fetchInsights a r env s).1.dailyData = []) := by
  have h := fetchInsights_ok a r env s dat htok hacc
  rw [h]
  refine ⟨rfl, rfl, rfl, ?_, ?_⟩
  · rw [hcamp]
    rfl
  · intro m2 hd
    rw [hd]
    rfl

/-- C1 witness: the amended statement instantiated at the concrete
stale-campaigns scenario. -/
theorem fetchInsights_campaign_tier_error_witness :
    (fetchInsights acctA rangeEx envCampErr stWithCampaigns).1.error = none ∧
    (fetchInsights acctA rangeEx envCampErr stWithCampaigns).1.campaigns
      = stWithCampaigns.campaigns :=
  ⟨(fetchInsights_campaign_tier_error acctA rangeEx envCampErr stWithCampaigns
      (some [rowEx]) "camp down" (by decide) rfl rfl).1,
   (fetchInsights_campaign_tier_error acctA rangeEx envCampErr stWithCampaigns
      (some [rowEx]) "camp down" (by decide) rfl rfl).2.2.2.1⟩

/-- C2 counterexample: on an account-tier failure the provider message
is surfaced, but the selected account and the campaign selection are
not left untouched — they are overwritten before the fetch runs. -/
theorem fetchInsights_failure_overwrites_selection_counterexample :
    (fetchInsights acctB rangeEx envAccErr stWithSelection).1.error
      = some "Invalid OAuth access token" ∧
    stWithSelection.selectedAccount = some acctA ∧
    (fetchInsights acctB rangeEx envAccErr stWithSelection).1.selectedAccount
      = some acctB ∧
    some acctB ≠ some acctA ∧
    stWithSelection.selectedCampaignId = some "c9" ∧
    (fetchInsights acctB rangeEx envAccErr stWithSelection).1.selectedCampaignId
      = none := by
  refine ⟨rfl, rfl, rfl, by decide, rfl, rfl⟩

/-- C2 (amended): on an account-tier provider error the displayed
insights, daily series, campaigns list and both baseline slots are
left untouched and the provider message is surfaced with loading
cleared; the selected account, the campaign selection and the stored
date range, written before the fetch, are however updated. -/
theorem fetchInsights_account_tier_error (a : AdAccount) (r : DateRange)
    (env : FetchEnv) (s : HookState) (m : String)
    (htok : ¬ s.token = "") (hacc : env.accountRes = ApiResponse.error m) :
    (fetchInsights a r env s).1.error = some m ∧
    (fetchInsights a r env s).1.insights = s.insights ∧
    (fetchInsights a r env s).1.dailyData = s.dailyData ∧
    (fetchInsights a r env s).1.campaigns = s.campaigns ∧
    (fetchInsights a r env s).1.accountInsights = s.accountInsights ∧
    (fetchInsights a r env s).1.accountDailyData = s.accountDailyData ∧
    (fetchInsights a r env s).1.accounts = s.accounts ∧
    (fetchInsights a r env s).1.token = s.token ∧
    (fetchInsights a r env s).1.loading = false ∧
    (fetchInsights a r env s).1.selectedAccount = some a ∧
    (fetchInsights a r env s).1.selectedCampaignId = none ∧
    (fetchInsights a r env s).1.lastDateRange = some r ∧
    (fetchInsights a r env s).2 = 1 := by
  simp [fetchInsights, htok, hacc]

/-- C2 witness: the amended statement instantiated at the concrete
invalid-token scenario. -/
theorem fetchInsights_account_tier_error_witness :
    (fetchInsights acctB rangeEx envAccErr stWithSelection).1.error
      = some "Invalid OAuth access token" ∧
    (fetchInsights acctB rangeEx envAccErr stWithSelection).1.accountInsights
      = stWithSelection.accountInsights :=
  ⟨(fetchInsights_account_tier_error acctB rangeEx envAccErr stWithSelection
      "Invalid OAuth access token" (by decide) rfl).1,
   (fetchInsights_account_tier_error acctB rangeEx envAccErr stWithSelection
      "Invalid OAuth access token" (by decide) rfl).2.2.2.2.1⟩

/-- C4: after a successful loadAccount, clicking the same campaign
twice in a row returns the selection to Unselected, restores the
displayed insights and daily series to the cached baseline of that
load (the parsed account snapshot), and the second invocation issues
no network request. -/
theorem selectCampaign_double_toggle_restores (a : AdAccount) (r : DateRange)
    (env : FetchEnv) (env2 env3 : SelectEnv) (s : HookState) (x : String)
    (dat : Option (List Row))
    (htok : ¬ s.token = "") (hacc : env.accountRes = ApiResponse.ok dat) :
    (selectCampaign x env3
        (selectCampaign x env2 (fetchInsights a r env s).1).1).1.insights
      = (fetchInsights a r env s).1.accountInsights ∧
    (selectCampaign x env3
        (selectCampaign x env2 (fetchInsights a r env s).1).1).1.dailyData
      = (fetchInsights a r env s).1.accountDailyData ∧
    (selectCampaign x env3
        (selectCampaign x env2 (fetchInsights a r env s).1).1).1.selectedCampaignId
      = none ∧
    (selectCampaign x env3
        (selectCampaign x env2 (fetchInsights a r env s).1).1).2 = 0 ∧
    (fetchInsights a r env s).1.accountInsights = some (accountParsed dat) := by
  have h1 := fetchInsights_ok a r env s dat htok hacc
  have h1tok : (fetchInsights a r env s).1.token = s.token := by rw [h1]
  have h1dr : (fetchInsights a r env s).1.lastDateRange = some r := by rw [h1]
  have h1sel : (fetchInsights a r env s).1.selectedCampaignId = none := by rw [h1]
  have h1ai : (fetchInsights a r env s).1.accountInsights
      = some (accountParsed dat) := by rw [h1]
  have htok1 : ¬ (fetchInsights a r env s).1.token = "" := by
    rw [h1tok]; exact htok
  have hdr1 : ¬ (fetchInsights a r env s).1.lastDateRange = none := by
    rw [h1dr]; simp
  have hne1 : ¬ some x = (fetchInsights a r env s).1.selectedCampaignId := by
    rw [h1sel]; simp
  have hb := selectCampaign_preserves_baseline x env2 (fetchInsights a r env s).1
  have hid := selectCampaign_sets_id x env2 (fetchInsights a r env s).1 htok1 hdr1 hne1
  have htok2 : ¬ (selectCampaign x env2 (fetchInsights a r env s).1).1.token = "" := by
    rw [hb.2.2.1]; exact htok1
  have hdr2 : ¬ (selectCampaign x env2
      (fetchInsights a r env s).1).1.lastDateRange = none := by
    rw [hb.2.2.2]; exact hdr1
  have htog := selectCampaign_toggle x env3
    (selectCampaign x env2 (fetchInsights a r env s).1).1 htok2 hdr2 hid
  refine ⟨?_, ?_, ?_, ?_, h1ai⟩
  · rw [htog]
    exact hb.1
  · rw [htog]
    exact hb.2.1
  · rw [htog]
  · rw [htog]

/-- C4 witness: the double toggle instantiated at a concrete
successful load of account A followed by two clicks on campaign c1. -/
theorem selectCampaign_double_toggle_restores_witness :
    (selectCampaign "c1" envSel
        (selectCampaign "c1" envSel (fetchInsights acctA rangeEx envOk
          (initialState "t")).1).1).1.selectedCampaignId = none ∧
    (selectCampaign "c1" envSel
        (selectCampaign "c1" envSel (fetchInsights acctA rangeEx envOk
          (initialState "t")).1).1).2 = 0 :=
  ⟨(selectCampaign_double_toggle_restores acctA rangeEx envOk envSel envSel
      (initialState "t") "c1" (some [rowEx]) (by decide) rfl).2.2.1,
   (selectCampaign_double_toggle_restores acctA rangeEx envOk envSel envSel
      (initialState "t") "c1" (some [rowEx]) (by decide) rfl).2.2.2.1⟩

/-- C5 counterexample: disconnect does not reset the error message —
an existing error survives it, while the initial error is none. -/
theorem disconnect_keeps_error_counterexample :
    stWithError.error = some "boom" ∧
    (disconnect stWithError).error = some "boom" ∧
    (initialState "").error = none ∧
    some "boom" ≠ (none : Option String) := by
  refine ⟨rfl, rfl, rfl, by decide⟩

/-- C5 (amended): disconnect resets the token, the account list, the
selected account, the displayed insights/campaigns/daily series, both
baseline slots, the campaign selection and the stored date range to
their initial values, but carries the error message (and the loading
flag) over unchanged instead of resetting them. -/
theorem disconnect_resets_except_error (s : HookState) :
    disconnect s = { initialState "" with error := s.error, loading := s.loading } :=
  rfl

/-- C7: an account tier that succeeds with zero rows stores the
canonical all-zero empty-insights snapshot — not a null/absent value —
in both the displayed and the baseline slot. -/
theorem fetchInsights_zero_rows_empty_snapshot (a : AdAccount) (r : DateRange)
    (env : FetchEnv) (s : HookState)
    (htok : ¬ s.token = "") (hacc : env.accountRes = ApiResponse.ok (some [])) :
    (fetchInsights a r env s).1.insights = some emptyInsights ∧
    (fetchInsights a r env s).1.accountInsights = some emptyInsights := by
  have h := fetchInsights_ok a r env s (some []) htok hacc
  rw [h]
  exact ⟨rfl, rfl⟩

/-- C7 witness: the zero-rows scenario instantiated at a concrete
environment whose account tier returns an empty data array. -/
theorem fetchInsights_zero_rows_empty_snapshot_witness :
    (fetchInsights acctA rangeEx envZero (initialState "t")).1.insights
      = some emptyInsights ∧
    (fetchInsights acctA rangeEx envZero (initialState "t")).1.accountInsights
      = some emptyInsights :=
  fetchInsights_zero_rows_empty_snapshot acctA rangeEx envZero (initialState "t")
    (by decide) rfl

/-- C8 counterexample: after a loadAccount attempt that failed at the
account tier (so no successful loadAccount has completed — the
baseline is still absent and an error is surfaced), selectCampaign is
not a no-op: it issues two network requests and records the clicked
campaign id, because the failed attempt already stored the date
range. -/
theorem selectCampaign_after_failed_load_counterexample :
    stAfterFailedLoad.error = some "Invalid OAuth access token" ∧
    stAfterFailedLoad.accountInsights = none ∧
    stAfterFailedLoad.selectedCampaignId = none ∧
    (selectCampaign "c1" envSel stAfterFailedLoad).2 = 2 ∧
    (selectCampaign "c1" envSel stAfterFailedLoad).1.selectedCampaignId
      = some "c1" := by
  refine ⟨rfl, rfl, rfl, rfl, rfl⟩

/-- C8 (amended): selectCampaign is a no-op — no state change and no
network request — whenever the token is empty or no loadAccount call
has stored a date range yet; in particular this holds in the initial
state, but after any loadAccount attempt (even a failed one) with a
token present the guard no longer fires. -/
theorem selectCampaign_guard_noop (cid : String) (env : SelectEnv) (s : HookState)
    (h : s.token = "" ∨ s.lastDateRange = none) :
    selectCampaign cid env s = (s, 0) := by
  unfold selectCampaign
  rw [if_pos h]

/-- C8 witness: the guard no-op at the freshly constructed state. -/
theorem selectCampaign_guard_noop_witness :
    selectCampaign "c1" envSel (initialState "t") = (initialState "t", 0) :=
  selectCampaign_guard_noop "c1" envSel (initialState "t") (Or.inr rfl)

/-- C10: clearCampaignSelection and the toggle-deselect branch of
selectCampaign write only the selection id and the displayed
insights/daily slots; the baseline slots, the campaigns list, the
token, the account list, the loading flag, the error message, the
selected account and the stored date range are all left unchanged,
and the toggle branch issues no network request. -/
theorem clear_and_toggle_frame (s s2 : HookState) (cid : String) (env : SelectEnv)
    (htok : ¬ s2.token = "") (hdr : ¬ s2.lastDateRange = none)
    (hsel : s2.selectedCampaignId = some cid) :
    (clearCampaignSelection s).selectedCampaignId = none ∧
    (clearCampaignSelection s).insights = s.accountInsights ∧
    (clearCampaignSelection s).dailyData = s.accountDailyData ∧
    (clearCampaignSelection s).accountInsights = s.accountInsights ∧
    (clearCampaignSelection s).accountDailyData = s.accountDailyData ∧
    (clearCampaignSelection s).campaigns = s.campaigns ∧
    (clearCampaignSelection s).token = s.token ∧
    (clearCampaignSelection s).accounts = s.accounts ∧
    (clearCampaignSelection s).loading = s.loading ∧
    (clearCampaignSelection s).error = s.error ∧
    (clearCampaignSelection s).selectedAccount = s.selectedAccount ∧
    (clearCampaignSelection s).lastDateRange = s.lastDateRange ∧
    (selectCampaign cid env s2).1.selectedCampaignId = none ∧
    (selectCampaign cid env s2).1.insights = s2.accountInsights ∧
    (selectCampaign cid env s2).1.dailyData = s2.accountDailyData ∧
    (selectCampaign cid env s2).1.accountInsights = s2.accountInsights ∧
    (selectCampaign cid env s2).1.accountDailyData = s2.accountDailyData ∧
    (selectCampaign cid env s2).1.campaigns = s2.campaigns ∧
    (selectCampaign cid env s2).1.token = s2.token ∧
    (selectCampaign cid env s2).1.accounts = s2.accounts ∧
    (selectCampaign cid env s2).1.loading = s2.loading ∧
    (selectCampaign cid env s2).1.error = s2.error ∧
    (selectCampaign cid env s2).1.selectedAccount = s2.selectedAccount ∧
    (selectCampaign cid env s2).1.lastDateRange = s2.lastDateRange ∧
    (selectCampaign cid env s2).2 = 0 := by
  rw [selectCampaign_toggle cid env s2 htok hdr hsel]
  exact ⟨rfl, rfl, rfl, rfl, rfl, rfl, rfl, rfl, rfl, rfl, rfl, rfl, rfl,
    rfl, rfl, rfl, rfl, rfl, rfl, rfl, rfl, rfl, rfl, rfl, rfl⟩

/-- C10 witness: the toggle frame property at a concrete state with
campaign c1 selected. -/
theorem clear_and_toggle_frame_witness :
    (selectCampaign "c1" envSel stSelected).1.selectedCampaignId = none ∧
    (selectCampaign "c1" envSel stSelected).2 = 0 :=
  ⟨(clear_and_toggle_frame (initialState "") stSelected "c1" envSel
      (by decide) (by decide) rfl).2.2.2.2.2.2.2.2.2.2.2.2.1,
   (clear_and_toggle_frame (initialState "") stSelected "c1" envSel
      (by decide) (by decide) rfl).2.2.2.2.2.2.2.2.2.2.2.2.2.2.2.2.2.2.2.2.2.2.2.2⟩

/-- C6 witness: the zero-guarded ratios instantiated at a concrete
row without purchases (both ratios zero) and a concrete row with
positive spend (roas equals the division). -/
theorem ratios_zero_guarded_witness :
    (parseInsightsRow campRowEx).purchases = JsNum.num 0 ∧
    (parseInsightsRow campRowEx).costPerPurchase = JsNum.num 0 ∧
    (parseInsightsRow rowEx).spend = JsNum.num 10 ∧
    (parseInsightsRow rowEx).roas
      = jsDiv (parseInsightsRow rowEx).purchaseValue (parseInsightsRow rowEx).spend := by
  have hp : (parseInsightsRow campRowEx).purchases = JsNum.num 0 := rfl
  have hs : (parseInsightsRow rowEx).spend = JsNum.num 10 := by
    with_unfolding_all rfl
  exact ⟨hp, (ratios_zero_guarded campRowEx campRowEx).2.2.1 hp, hs,
    (ratios_zero_guarded rowEx rowEx).2.1 10 (by norm_num) hs⟩
